import Mathlib

/-!
Verification development for the ScreenGuideAI repository (b08x/ScreenGuideAI).

The development shallowly embeds the media capture and recording pipeline of
`components/VideoRecorder.tsx` (reached through `components/InputSection.tsx`),
the upload validation of `components/InputSection.tsx`, and the guide-generation
request construction of `services/geminiService.ts` together with its caller
`App.tsx`.

Modelling conventions:

* Machine media tracks are identified by natural-number ids; a `MediaStream` is
  the ordered list of its tracks, as in the DOM API.
* The world records which tracks were ever acquired from the hardware and which
  have been stopped, and which `setInterval` timers are active.
* The React component is a record of its `useState` state, its `useRef` refs and
  the stream captured by the currently registered `useEffect` cleanup.  React 18
  batches the state updates of one event handler and commits them when the
  handler returns; the effect of `VideoRecorder.tsx` lines 446-455 has
  dependency array `[stream]`, so whenever a commit changes the `stream` state
  the previous effect's cleanup runs first: it stops the tracks of the stream
  value that the previous effect closed over and clears the interval currently
  held by `timerIntervalRef` (a ref, so the cleanup reads its current value).
  `commitEffects` below models exactly that, and `step` runs it after every
  event handler.
* Closures keep the state values of the render they were created in.  The
  `onstop` handler of the media recorder therefore stops the `stream` value
  from the render in which `handleStartRecording` ran, not the current one;
  the recorder record stores those captured values.
* Binary data (a recorded chunk, a file body) is a `List Nat` of bytes.
-/

namespace ScreenGuideAI

/-- Kind of a hardware media track (`MediaStreamTrack.kind`). -/
inductive TrackKind where
  | video
  | audio
deriving DecidableEq, Repr

/-- One hardware media track, identified by its id. -/
structure Track where
  id : Nat
  kind : TrackKind
deriving DecidableEq, Repr

/-- A `MediaStream`: the ordered list of tracks it holds. -/
structure MediaStream where
  tracks : List Track
deriving DecidableEq, Repr

/-- `MediaStream.getVideoTracks()`. -/
def MediaStream.getVideoTracks (s : MediaStream) : List Track :=
  s.tracks.filter (fun t => t.kind = TrackKind.video)

/-- `MediaStream.getAudioTracks()`. -/
def MediaStream.getAudioTracks (s : MediaStream) : List Track :=
  s.tracks.filter (fun t => t.kind = TrackKind.audio)

/-- `MediaStream.addTrack(t)`: adds the track to the stream's track set
(`VideoRecorder.tsx` line 508). -/
def MediaStream.addTrack (s : MediaStream) (t : Track) : MediaStream :=
  { s with tracks := s.tracks ++ [t] }

/-- The world outside the component: which tracks have ever been acquired from
the hardware, which have been stopped (`track.stop()`), and which interval
timers are active. -/
structure World where
  acquired : List Track
  stopped : List Nat
  activeIntervals : List Nat
  nextIntervalId : Nat
deriving DecidableEq, Repr

/-- The world before anything happened. -/
def World.initial : World :=
  { acquired := [], stopped := [], activeIntervals := [], nextIntervalId := 0 }

/-- Record that the tracks of a freshly granted stream are now owned by the
page (the effect of a successful `getUserMedia` / `getDisplayMedia` call). -/
def World.acquire (w : World) (ts : List Track) : World :=
  { w with acquired := w.acquired ++ ts }

/-- `track.stop()` on every track of the list. -/
def World.stopTracks (w : World) (ts : List Track) : World :=
  { w with stopped := w.stopped ++ ts.map Track.id }

/-- `window.setInterval(...)`: allocates a fresh interval id and activates it. -/
def World.setInterval (w : World) : Nat × World :=
  (w.nextIntervalId,
   { w with activeIntervals := w.activeIntervals ++ [w.nextIntervalId],
            nextIntervalId := w.nextIntervalId + 1 })

/-- `clearInterval(i)`: deactivates the interval (a no-op when not active). -/
def World.clearInterval (w : World) (i : Nat) : World :=
  { w with activeIntervals := w.activeIntervals.erase i }

/-- The tracks that were acquired and have not been stopped: their
`readyState` is still `live`. -/
def World.liveTracks (w : World) : List Track :=
  w.acquired.filter (fun t => ¬ t.id ∈ w.stopped)

/-- A thrown DOM exception, classified by the code through its `name`
(`VideoRecorder.tsx` lines 584-591). -/
structure JsError where
  name : String
  message : String
deriving DecidableEq, Repr

/-- The capture source selected in the UI (`type RecordSource` in
`VideoRecorder.tsx` line 424). -/
inductive RecordSource where
  | camera
  | screen
  | audio
deriving DecidableEq, Repr

/-- `MediaRecorder.state` (only the two values the component inspects). -/
inductive RecorderState where
  | recording
  | inactive
deriving DecidableEq, Repr

/-- The constructed `MediaRecorder`.  `mimeType` is the recorder's reported
mime type after construction; `onstopStream` and `onstopSource` are the
`stream` state value and the `recordSource` value captured by the `onstop`
closure at the render in which `handleStartRecording` ran. -/
structure MediaRecorder where
  stream : MediaStream
  mimeType : String
  state : RecorderState
  onstopStream : Option MediaStream
  onstopSource : RecordSource
deriving DecidableEq, Repr

/-- A blob: its bytes and its `type` (`new Blob(chunks, { type })` concatenates
the chunks). -/
structure Blob where
  data : List Nat
  type : String
deriving DecidableEq, Repr

/-- A `File` (`new File([blob], fileName, { type })`). -/
structure MediaFile where
  name : String
  type : String
  data : List Nat
deriving DecidableEq, Repr

/-- The `<video>` preview element (`videoRef.current`): its `src` (a blob URL,
modelled by the blob itself), its `srcObject`, and the `muted` / `controls`
flags the component sets. -/
structure VideoElement where
  src : Option Blob
  srcObject : Option MediaStream
  muted : Bool
  controls : Bool
deriving DecidableEq, Repr

/-- The `VideoRecorder` component: its `useState` state (`isRecording`,
`stream`, `error`, `hasRecording`, `recordingTime`, `recordSource`,
`includeMic`), its refs (`mediaRecorderRef`, `recordedChunks`,
`timerIntervalRef`, `videoRef`), the `videoFile` owned by the parent and set
through the `setVideoFile` prop, the stream value captured by the currently
registered `[stream]` effect cleanup (`effectStream`), and the `stream` value
captured by the `onended` handler of the current session's display video
track, when one is attached (`onended`, `VideoRecorder.tsx` lines 514-517). -/
structure VideoRecorder where
  isRecording : Bool
  stream : Option MediaStream
  error : Option String
  hasRecording : Bool
  recordingTime : Nat
  recordSource : RecordSource
  includeMic : Bool
  mediaRecorder : Option MediaRecorder
  recordedChunks : List (List Nat)
  timerInterval : Option Nat
  video : VideoElement
  videoFile : Option MediaFile
  effectStream : Option MediaStream
  onended : Option (Option MediaStream)
deriving DecidableEq, Repr

/-- The component as mounted: the `useState` initial values of
`VideoRecorder.tsx` lines 427-437. -/
def VideoRecorder.initial : VideoRecorder :=
  { isRecording := false, stream := none, error := none, hasRecording := false,
    recordingTime := 0, recordSource := RecordSource.camera, includeMic := true,
    mediaRecorder := none, recordedChunks := [], timerInterval := none,
    video := { src := none, srcObject := none, muted := false, controls := false },
    videoFile := none, effectStream := none, onended := none }

/-- The capture capability surface of the platform: the outcome of each kind of
device request, `MediaRecorder.isTypeSupported`, and the mime type the
recorder reports when constructed without an explicit `mimeType` option. -/
structure MediaEnv where
  /-- `getUserMedia({ audio: true, video: false })` (microphone only). -/
  gumAudio : Except JsError MediaStream
  /-- `getUserMedia({ video: 1280x720, audio: b })`; the argument is the
  `audio` constraint (`includeMic`). -/
  gumCamera : Bool → Except JsError MediaStream
  /-- `getDisplayMedia({ video: 1920x1080@30, audio: true })`. -/
  getDisplayMedia : Except JsError MediaStream
  /-- `MediaRecorder.isTypeSupported`. -/
  isTypeSupported : String → Bool
  /-- The platform's default container/codec: the `mimeType` the recorder
  reports when the preferred one was dropped from the options. -/
  defaultMimeType : String

/-- The preferred mime type for the chosen source (`VideoRecorder.tsx`
lines 528-533). -/
def preferredMimeType (src : RecordSource) : String :=
  if src = RecordSource.audio then "audio/webm" else "video/webm; codecs=vp9"

/-- Mime-type negotiation (`VideoRecorder.tsx` lines 535-538): keep the
preferred mime type when supported, otherwise delete it from the options
(`none`), so that the recorder is constructed with the platform default. -/
def negotiateMime (src : RecordSource) (isTypeSupported : String → Bool) :
    Option String :=
  if isTypeSupported (preferredMimeType src) then some (preferredMimeType src)
  else none

/-- The device acquisition of `handleStartRecording` (`VideoRecorder.tsx`
lines 487-518): one joint request for camera or audio-only, and for screen a
display-capture request followed, when the microphone is included, by a
separate microphone request whose first audio track is added into the display
stream.  Every granted stream's tracks are recorded as acquired in the world
even when a later request of the same attempt fails. -/
def acquireForSource (env : MediaEnv) (src : RecordSource) (includeMic : Bool)
    (w : World) : Except JsError MediaStream × World :=
  match src with
  | RecordSource.audio =>
    match env.gumAudio with
    | Except.error e => (Except.error e, w)
    | Except.ok ms => (Except.ok ms, w.acquire ms.tracks)
  | RecordSource.camera =>
    match env.gumCamera includeMic with
    | Except.error e => (Except.error e, w)
    | Except.ok ms => (Except.ok ms, w.acquire ms.tracks)
  | RecordSource.screen =>
    match env.getDisplayMedia with
    | Except.error e => (Except.error e, w)
    | Except.ok ds =>
      let w := w.acquire ds.tracks
      if includeMic then
        match env.gumAudio with
        | Except.error e => (Except.error e, w)
        | Except.ok mic =>
          let w := w.acquire mic.tracks
          match mic.getAudioTracks.head? with
          | some t => (Except.ok (ds.addTrack t), w)
          | none =>
            -- `micStream.getAudioTracks()[0]` is `undefined`;
            -- `displayStream.addTrack(undefined)` throws a TypeError (the
            -- engine's message text is not modelled).
            (Except.error { name := "TypeError", message := "" }, w)
      else (Except.ok ds, w)

/-- The user-facing message the catch block of `handleStartRecording` selects
(`VideoRecorder.tsx` lines 584-591). -/
def startErrorMessage (src : RecordSource) (e : JsError) : String :=
  if e.name = "NotAllowedError" ∨ e.name = "PermissionDeniedError" then
    (if src = RecordSource.camera then "Camera/mic" else "Screen") ++
      " permission denied. Please allow access in your browser settings."
  else if e.name = "NotFoundError" then
    "No camera or microphone found. Please connect a device and try again."
  else "Could not start recording: " ++ e.message

/-- The synchronous resets at the top of `handleStartRecording`
(`VideoRecorder.tsx` lines 474-484). -/
def resetForStart (c : VideoRecorder) : VideoRecorder :=
  { c with error := none, videoFile := none, hasRecording := false,
           recordedChunks := [], recordingTime := 0,
           video := { c.video with
                      src := none, srcObject := none, controls := false } }

/-- `handleStartRecording` (`VideoRecorder.tsx` lines 473-597).  `c₀` is the
component at the render in which the handler ran; closures created here
capture `c₀.stream`.  State updates accumulate in the returned record and
commit when the handler returns (see `commitEffects`). -/
def handleStartRecording (env : MediaEnv) (c₀ : VideoRecorder) (w : World) :
    VideoRecorder × World :=
  let c := resetForStart c₀
  match acquireForSource env c.recordSource c.includeMic w with
  | (Except.error e, w) =>
    ({ c with error := some (startErrorMessage c.recordSource e),
              isRecording := false }, w)
  | (Except.ok ms, w) =>
    -- lines 513-517: on the screen path, attach `onended` to the first video
    -- track; the handler closes over the render's `stream` value.
    let c :=
      if c.recordSource = RecordSource.screen ∧ ms.getVideoTracks.head?.isSome
      then { c with onended := some c₀.stream } else c
    -- line 520: setStream(mediaStream)
    let c := { c with stream := some ms }
    -- lines 521-525: live preview for the non-audio sources
    let c :=
      if c.recordSource ≠ RecordSource.audio then
        { c with video := { c.video with srcObject := some ms, muted := true } }
      else c
    -- lines 528-541: mime negotiation and recorder construction; the `onstop`
    -- closure captures the render's `stream` and `recordSource`.
    let r : MediaRecorder :=
      { stream := ms,
        mimeType := (negotiateMime c.recordSource env.isTypeSupported).getD
          env.defaultMimeType,
        state := RecorderState.recording,
        onstopStream := c₀.stream,
        onstopSource := c.recordSource }
    -- lines 576-580: recorder.start(); setIsRecording(true); start the timer.
    let c := { c with mediaRecorder := some r, isRecording := true }
    let (i, w) := w.setInterval
    ({ c with timerInterval := some i }, w)

/-- The file name chosen at finalization (`VideoRecorder.tsx` lines 553-556). -/
def suggestedFileName (src : RecordSource) : String :=
  if src = RecordSource.screen then "screen-recording.webm"
  else if src = RecordSource.camera then "camera-recording.webm"
  else if src = RecordSource.audio then "audio-recording.webm"
  else "recording.webm"

/-- The finalization mime type (`VideoRecorder.tsx` line 550):
`mediaRecorderRef.current?.mimeType || (audio ? 'audio/webm' : 'video/webm')`. -/
def finalizedMimeType (r : MediaRecorder) : String :=
  if r.mimeType ≠ "" then r.mimeType
  else if r.onstopSource = RecordSource.audio then "audio/webm"
  else "video/webm"

/-- The `onstop` handler of the recorder (`VideoRecorder.tsx` lines 549-574):
finalize the blob from the accumulated chunks, hand the named file to the
parent, rebind the preview, stop the tracks of the *captured* stream value and
clear the `stream` and `isRecording` state. -/
def onstop (r : MediaRecorder) (c : VideoRecorder) (w : World) :
    VideoRecorder × World :=
  let mimeType := finalizedMimeType r
  let blob : Blob := { data := c.recordedChunks.flatten, type := mimeType }
  let file : MediaFile :=
    { name := suggestedFileName r.onstopSource, type := mimeType,
      data := blob.data }
  let c := { c with videoFile := some file, hasRecording := true }
  -- lines 562-568: swap the preview from the live stream to the blob URL
  let c :=
    if r.onstopSource ≠ RecordSource.audio then
      { c with video := { c.video with
                          srcObject := none, src := some blob, muted := false,
                          controls := true } }
    else c
  -- line 571: `stream?.getTracks().forEach(track => track.stop())` on the
  -- stream value captured at the start render.
  let w := match r.onstopStream with
    | some s => w.stopTracks s.tracks
    | none => w
  -- lines 572-573
  ({ c with stream := none, isRecording := false }, w)

/-- `handleStopRecording` (`VideoRecorder.tsx` lines 599-613).  `capturedStream`
is the `stream` state value the invoking closure captured: the current render's
value for the stop button, the start render's value for the screen-share
`onended` handler. -/
def handleStopRecording (capturedStream : Option MediaStream)
    (c : VideoRecorder) (w : World) : VideoRecorder × World :=
  -- lines 600-603: clear the timer through the ref
  let (c, w) :=
    match c.timerInterval with
    | some i => ({ c with timerInterval := none }, w.clearInterval i)
    | none => (c, w)
  match c.mediaRecorder with
  | some r =>
    if r.state = RecorderState.recording then
      -- lines 604-606: recorder.stop(); the recorder becomes inactive and its
      -- `onstop` handler runs.
      let r := { r with state := RecorderState.inactive }
      let c := { c with mediaRecorder := some r }
      onstop r c w
    else
      -- lines 607-612: stream exists but the recorder is not recording
      let w := match capturedStream with
        | some s => w.stopTracks s.tracks
        | none => w
      ({ c with stream := none, isRecording := false }, w)
  | none =>
    let w := match capturedStream with
      | some s => w.stopTracks s.tracks
      | none => w
    ({ c with stream := none, isRecording := false }, w)

/-- The commit of a handler's state updates, followed by React's passive
effects.  The effect of `VideoRecorder.tsx` lines 446-455 has dependency array
`[stream]`: when the committed `stream` differs from the one the registered
effect captured, the previous cleanup runs first — it stops the tracks of the
captured stream and clears whatever interval `timerIntervalRef` currently
holds — and the effect re-registers with the new `stream`. -/
def commitEffects (cw : VideoRecorder × World) : VideoRecorder × World :=
  let (c, w) := cw
  if c.effectStream = c.stream then (c, w)
  else
    let w := match c.effectStream with
      | some s => w.stopTracks s.tracks
      | none => w
    let w := match c.timerInterval with
      | some i => w.clearInterval i
      | none => w
    ({ c with effectStream := c.stream }, w)

/-- The events the component reacts to. -/
inductive Event where
  /-- A click on the start button, in an environment describing the devices. -/
  | clickStart (env : MediaEnv)
  /-- A click on the stop button. -/
  | clickStop
  /-- The platform's out-of-band signal that screen sharing ended (the native
  "Stop sharing" control): the display video track's `onended` fires. -/
  | screenShareEnded
  /-- A `dataavailable` callback from the active recorder. -/
  | chunk (data : List Nat)
  /-- One elapsed period of the interval timer with the given id. -/
  | tick (i : Nat)
  /-- A click on one of the source buttons. -/
  | selectSource (s : RecordSource)
  /-- Toggling the "Include Microphone Audio" checkbox. -/
  | toggleMic (b : Bool)

/-- `handleSourceChange` (`VideoRecorder.tsx` lines 457-471). -/
def handleSourceChange (s : RecordSource) (c : VideoRecorder) :
    VideoRecorder :=
  if c.isRecording then c
  else
    let c := { c with recordSource := s }
    if c.hasRecording ∨ c.error ≠ none then
      { c with error := none, hasRecording := false, videoFile := none,
               video := { c.video with
                          src := none, srcObject := none, controls := false } }
    else c

/-- One event processed by the component: the UI gates (the start button is
rendered only while not recording, `VideoRecorder.tsx` lines 704-720; the
source buttons and the microphone checkbox are `disabled` while recording,
lines 633, 643, 653, 668), then the handler, then the commit with its passive
effects.  `dataavailable` pushes on a ref and triggers no re-render; a timer
tick only fires for an interval that is still active. -/
def step (ev : Event) (cw : VideoRecorder × World) : VideoRecorder × World :=
  let (c, w) := cw
  match ev with
  | Event.clickStart env =>
    if c.isRecording then (c, w)
    else commitEffects (handleStartRecording env c w)
  | Event.clickStop =>
    if c.isRecording then commitEffects (handleStopRecording c.stream c w)
    else (c, w)
  | Event.screenShareEnded =>
    match c.onended with
    | some cap => commitEffects (handleStopRecording cap c w)
    | none => (c, w)
  | Event.chunk d =>
    match c.mediaRecorder with
    | some r =>
      if r.state = RecorderState.recording then
        -- lines 543-547: `if (event.data.size > 0) recordedChunks.current.push`
        if 0 < d.length then
          ({ c with recordedChunks := c.recordedChunks ++ [d] }, w)
        else (c, w)
      else (c, w)
    | none => (c, w)
  | Event.tick i =>
    if i ∈ w.activeIntervals then
      -- line 579: `setRecordingTime(prevTime => prevTime + 1)`
      commitEffects ({ c with recordingTime := c.recordingTime + 1 }, w)
    else (c, w)
  | Event.selectSource s => commitEffects (handleSourceChange s c, w)
  | Event.toggleMic b =>
    if c.isRecording then (c, w)
    else commitEffects ({ c with includeMic := b }, w)

/-- A trace of events processed in order. -/
def stepList (evs : List Event) (cw : VideoRecorder × World) :
    VideoRecorder × World :=
  evs.foldl (fun s ev => step ev s) cw

/-! ### Upload validation (`components/InputSection.tsx`) -/

/-- A DOM `File` as the upload paths see it: its `name`, its MIME `type` and
its bytes (`size` is the byte count). -/
structure WebFile where
  name : String
  type : String
  data : List Nat
deriving DecidableEq, Repr

/-- `File.size`. -/
def WebFile.size (f : WebFile) : Nat := f.data.length

/-- The upload-relevant state of `InputSection`: the selected video file (the
parent's `videoFile`, set through the `setVideoFile` prop) and the
`uploadError` message. -/
structure UploadState where
  videoFile : Option WebFile
  uploadError : Option String
deriving DecidableEq, Repr

/-- `const MAX_FILE_SIZE = 500 * 1024 * 1024` (`InputSection.tsx` line 63). -/
def MAX_FILE_SIZE : Nat := 500 * 1024 * 1024

/-- JavaScript `String.prototype.startsWith`, evaluable by reduction over the
character list. -/
def jsStartsWith (s pre : String) : Bool := List.isPrefixOf pre.data s.data

/-- `validateAndSetFile` (`InputSection.tsx` lines 61-76): clear the previous
upload error; reject a non-`video/*` MIME type, then a file over the size
limit, each with its own message and without touching the selected file;
otherwise select the file. -/
def validateAndSetFile (file : WebFile) (st : UploadState) : UploadState :=
  let st := { st with uploadError := none }
  if ¬ (jsStartsWith file.type "video/") then
    { st with uploadError := some "Invalid file type. Please upload a video file." }
  else if file.size > MAX_FILE_SIZE then
    { st with uploadError := some "File exceeds 500MB limit. Please choose a smaller video." }
  else { st with videoFile := some file }

/-- `handleFileChange` (`InputSection.tsx` lines 78-82): the picker path
validates the first selected file. -/
def handleFileChange (files : List WebFile) (st : UploadState) : UploadState :=
  match files with
  | [] => st
  | f :: _ => validateAndSetFile f st

/-- `handleDrop` (`InputSection.tsx` lines 96-105): the drag-and-drop path
validates the first dropped file. -/
def handleDrop (files : List WebFile) (st : UploadState) : UploadState :=
  match files with
  | [] => st
  | f :: _ => validateAndSetFile f st

/-! ### Guide generation (`services/geminiService.ts` and `App.tsx`) -/

/-- `type OutputFormat = 'guide' | 'article'` (the two literals the
components and the service branch on). -/
inductive OutputFormat where
  | guide
  | article
deriving DecidableEq, Repr

/-- The requested-format phrase (`geminiService.ts` lines 98-100). -/
def formatText (outputFormat : OutputFormat) : String :=
  if outputFormat = OutputFormat.guide then
    "a detailed step-by-step guide with numbered steps"
  else "a concise knowledge base article with clear headings and sections"

/-- The fixed prompt template of `generateGuide` (`geminiService.ts`
lines 102-129), reproduced verbatim; `x || 'placeholder'` on a JavaScript
string falls back exactly when the string is empty. -/
def fullPrompt (userPrompt : String) (outputFormat : OutputFormat)
    (fileName videoDescription transcribedText : String) : String :=
  "
# Agent Identity: ScreenGuide
You are ScreenGuide, an AI agent specializing in transforming screen recordings into high-quality documentation for software tutorials, educational content, how-to-guides, and process documentation.

# Core Responsibilities
- **Analyze and Transcribe:** Analyze the provided video, including visual information (UI elements, clicks, inputs, on-screen changes) and spoken audio, to create a chronological sequence of steps.
- **Synthesize Content:** Summarize and synthesize the information into the requested output format.
- **Formatting:** Use markdown extensively for readability. This includes headings, subheadings, lists (numbered and bulleted), and bold text to create a well-structured and easy-to-read document.
- **Visual Enhancement:** To make the guide more engaging and easier to follow, represent UI elements with simple ASCII art (e.g., `( Save Changes ) `, `[ Enter your name... ]`) and suggest where screenshots would be helpful using placeholders like `[Image: A screenshot of the main dashboard after login.]`.
- **Objectivity:** Ensure the generated guide is objective, factual, and does not reflect any bias.
- **Handle Uncertainty:** If you encounter ambiguous information or are not confident in your interpretation of a step from the video, clearly mark that section for human review (e.g., \"[Review needed: The specific menu item clicked was unclear in the video.]\").

# Task for this Request
- **Input Video:** You are being provided a screen recording named \"" ++ fileName ++ "\". Your primary task is to analyze its visual and audio content to generate the documentation.
- **Video Transcription (for reference only):** The following is a machine-generated transcription of the audio from the video. Use this as a supplementary reference, but rely on your direct analysis of the video's audio and visuals as the primary source of truth.
```
" ++ (if transcribedText = "" then "No transcription was provided."
      else transcribedText) ++ "
```
- **Video Description:** The user has provided the following description of the video content: \"" ++
  (if videoDescription = "" then "No description provided."
   else videoDescription) ++ "\"
- **Requested Output Format:** Your task is to generate " ++
  formatText outputFormat ++ " based on the video's content.
- **User Instructions:** Adapt your tone, language, and focus based on the following user-provided context: \"" ++
  (if userPrompt = "" then "No additional instructions provided."
   else userPrompt) ++ "\"

# Final Output Rules
- The entire output must be in markdown format.
- The content must be clear, concise, and easy for the intended audience to follow.
- **Incorporate Visuals:** Use ASCII art for UI elements and `[Image: ...]` placeholders where a screenshot would clarify a complex step or significant visual change.
- **Crucially, do not mention that you are an AI or that you analyzed a video.** Just provide the guide or article directly, as if you are the human author of the document.
  "

/-- One part of a `generateContent` request: a text part, or an `inlineData`
binary payload (base64 transport is a bijection; the payload is modelled by
the raw bytes). -/
inductive GenPart where
  | text (t : String)
  | inlineData (mimeType : String) (data : List Nat)
deriving DecidableEq, Repr

/-- A `generateContent` request: the model name and the parts of its single
content entry. -/
structure GenRequest where
  model : String
  parts : List GenPart
deriving DecidableEq, Repr

/-- `generateGuide` (`geminiService.ts` lines 90-150) as a request builder.
Its sixth parameter is the video `File`; modelled as an `Option` because the
call site in `App.tsx` omits the argument, so at runtime it can be
`undefined` (`none`).  With a file, the request carries the prompt text part
and exactly one video `inlineData` part; with `undefined`,
`fileToBase64(undefined)` rejects and the catch block throws the generic
failure message. -/
def generateGuide (userPrompt : String) (outputFormat : OutputFormat)
    (fileName videoDescription transcribedText : String)
    (videoFile : Option WebFile) : Except String GenRequest :=
  match videoFile with
  | none =>
    Except.error
      "Failed to generate guide. Please check your API key and network connection."
  | some f =>
    Except.ok
      { model := "gemini-2.5-pro",
        parts :=
          [GenPart.text
            (fullPrompt userPrompt outputFormat fileName videoDescription
              transcribedText),
           GenPart.inlineData f.type f.data] }

/-- The outcome of `handleGenerate` in `App.tsx`. -/
inductive GenerateOutcome where
  /-- No file selected: `setError('Please upload a video file first.')`. -/
  | validationError (error : String)
  /-- `generateGuide` threw: `setError('An error occurred: ' + e.message)`. -/
  | requestFailed (error : String)
  /-- The request was issued and its result stored. -/
  | success (request : GenRequest)
deriving DecidableEq, Repr

/-- `handleGenerate` (`App.tsx` lines 50-72).  The call on line 61 passes five
arguments — `userPrompt, outputFormat, videoFile.name, videoDescription,
transcribedText` — to the six-parameter `generateGuide`, leaving its
`videoFile` parameter `undefined` (`none`). -/
def handleGenerate (videoFile : Option WebFile) (userPrompt : String)
    (outputFormat : OutputFormat) (videoDescription transcribedText : String) :
    GenerateOutcome :=
  match videoFile with
  | none => GenerateOutcome.validationError "Please upload a video file first."
  | some vf =>
    match generateGuide userPrompt outputFormat vf.name videoDescription
        transcribedText none with
    | Except.error m => GenerateOutcome.requestFailed ("An error occurred: " ++ m)
    | Except.ok req => GenerateOutcome.success req

/-! ### Characterization of the reachable session states -/

/-- The recorder constructed by a successful start for source `src` on
stream `ms`. -/
def startedRecorder (env : MediaEnv) (src : RecordSource) (ms : MediaStream) :
    MediaRecorder :=
  { stream := ms,
    mimeType := (negotiateMime src env.isTypeSupported).getD env.defaultMimeType,
    state := RecorderState.recording,
    onstopStream := none,
    onstopSource := src }

/-- The component and world right after a successful `handleStartRecording`
from an idle component `c` whose acquisition produced stream `ms` and world
`w₁`, including the commit of the `[stream]` effect (which clears the interval
that was just registered). -/
def startedState (env : MediaEnv) (c : VideoRecorder) (ms : MediaStream)
    (w₁ : World) : VideoRecorder × World :=
  ({ c with
      error := none, videoFile := none, hasRecording := false,
      recordedChunks := [], recordingTime := 0,
      video :=
        if c.recordSource ≠ RecordSource.audio then
          { c.video with
            src := none, srcObject := some ms, muted := true,
            controls := false }
        else
          { c.video with src := none, srcObject := none, controls := false },
      onended :=
        if c.recordSource = RecordSource.screen ∧
            ms.getVideoTracks.head?.isSome then
          some none
        else c.onended,
      stream := some ms,
      mediaRecorder := some (startedRecorder env c.recordSource ms),
      isRecording := true,
      timerInterval := some w₁.nextIntervalId,
      effectStream := some ms },
   { w₁ with
      activeIntervals :=
        (w₁.activeIntervals ++ [w₁.nextIntervalId]).erase w₁.nextIntervalId,
      nextIntervalId := w₁.nextIntervalId + 1 })

/-- The events that can occur while a recording is in progress without
stopping it. -/
def IsMid : Event → Prop
  | Event.chunk _ => True
  | Event.tick _ => True
  | Event.selectSource _ => True
  | Event.toggleMic _ => True
  | Event.clickStart _ => True
  | _ => False

/-! ### Concrete environments and states used by the closed theorems -/

/-- A platform that grants every device request: the camera stream carries a
video and an audio track, the microphone stream a single audio track. -/
def cameraGrantedEnv : MediaEnv :=
  { gumAudio := Except.ok { tracks := [{ id := 2, kind := TrackKind.audio }] },
    gumCamera := fun _ => Except.ok
      { tracks := [{ id := 0, kind := TrackKind.video },
                   { id := 1, kind := TrackKind.audio }] },
    getDisplayMedia := Except.ok
      { tracks := [{ id := 3, kind := TrackKind.video }] },
    isTypeSupported := fun _ => true,
    defaultMimeType := "video/webm;codecs=vp8,opus" }

/-- A platform that grants the display capture (a video and a system-audio
track) but denies the subsequent microphone request. -/
def micDeniedEnv : MediaEnv :=
  { gumAudio := Except.error
      { name := "NotAllowedError", message := "Permission denied" },
    gumCamera := fun _ => Except.error
      { name := "NotAllowedError", message := "Permission denied" },
    getDisplayMedia := Except.ok
      { tracks := [{ id := 0, kind := TrackKind.video },
                   { id := 1, kind := TrackKind.audio }] },
    isTypeSupported := fun _ => true,
    defaultMimeType := "video/webm;codecs=vp8,opus" }

/-- `cameraGrantedEnv` on a platform that reports every mime type
unsupported. -/
def unsupportedMimeEnv : MediaEnv :=
  { cameraGrantedEnv with isTypeSupported := fun _ => false }

/-- A concrete screen-recording-in-progress state. -/
def recordingStateW : VideoRecorder :=
  { VideoRecorder.initial with
      isRecording := true,
      recordSource := RecordSource.screen,
      stream := some { tracks := [{ id := 0, kind := TrackKind.video }] },
      effectStream := some { tracks := [{ id := 0, kind := TrackKind.video }] },
      mediaRecorder := some
        { stream := { tracks := [{ id := 0, kind := TrackKind.video }] },
          mimeType := "video/webm; codecs=vp9",
          state := RecorderState.recording,
          onstopStream := none, onstopSource := RecordSource.screen },
      timerInterval := some 0,
      onended := some none }

/-- A successful start click from an idle component reaches exactly
`startedState`. -/
theorem step_clickStart_ok
    (env : MediaEnv) (c : VideoRecorder) (w : World) (ms : MediaStream)
    (w₁ : World)
    (hrec : c.isRecording = false) (hstr : c.stream = none)
    (heff : c.effectStream = none)
    (hacq : acquireForSource env c.recordSource c.includeMic w =
      (Except.ok ms, w₁)) :
    step (Event.clickStart env) (c, w) = startedState env c ms w₁ := by
  cases c with
  | mk isR str err hasR time src mic mr chunks ti vid vf eff oe =>
    dsimp at hrec hstr heff hacq
    subst hrec hstr heff
    dsimp [step, handleStartRecording, resetForStart, startedState,
      startedRecorder] at *
    rw [hacq]
    dsimp [commitEffects, World.setInterval, World.clearInterval]
    split_ifs <;> first | rfl | simp_all

/-- While recording, a mid-session event can only grow the chunk buffer or
advance the clock; every other component field and the world are unchanged. -/
theorem step_mid (ev : Event) (c : VideoRecorder) (w : World)
    (hmid : IsMid ev) (hrec : c.isRecording = true)
    (hse : c.effectStream = c.stream) :
    ∃ chs t, step ev (c, w) =
      ({ c with recordedChunks := chs, recordingTime := t }, w) := by
  cases c with
  | mk isR str err hasR time src mic mr chunks ti vid vf eff oe =>
    dsimp at hrec hse
    subst hrec hse
    cases ev with
    | clickStart env =>
      exact ⟨chunks, time, by simp [step]⟩
    | clickStop => exact absurd hmid (by simp [IsMid])
    | screenShareEnded => exact absurd hmid (by simp [IsMid])
    | chunk d =>
      dsimp [step]
      match mr with
      | none => exact ⟨chunks, time, by simp⟩
      | some r =>
        by_cases hst : r.state = RecorderState.recording
        · by_cases hd : 0 < d.length
          · exact ⟨chunks ++ [d], time, by simp [hst, hd]⟩
          · exact ⟨chunks, time, by simp [hst, hd]⟩
        · exact ⟨chunks, time, by simp [hst]⟩
    | tick i =>
      by_cases hi : i ∈ w.activeIntervals
      · exact ⟨chunks, time + 1, by simp [step, hi, commitEffects]⟩
      · exact ⟨chunks, time, by simp [step, hi]⟩
    | selectSource s =>
      exact ⟨chunks, time, by simp [step, handleSourceChange, commitEffects]⟩
    | toggleMic b =>
      exact ⟨chunks, time, by simp [step]⟩

/-- `step_mid`, iterated over a list of mid-session events. -/
theorem stepList_mid (evs : List Event) (c : VideoRecorder) (w : World)
    (hmid : ∀ ev ∈ evs, IsMid ev) (hrec : c.isRecording = true)
    (hse : c.effectStream = c.stream) :
    ∃ chs t, stepList evs (c, w) =
      ({ c with recordedChunks := chs, recordingTime := t }, w) := by
  induction evs generalizing c w with
  | nil => exact ⟨c.recordedChunks, c.recordingTime, by simp [stepList]⟩
  | cons ev evs ih =>
    obtain ⟨chs, t, h1⟩ := step_mid ev c w (hmid ev (by simp)) hrec hse
    obtain ⟨chs', t', h2⟩ :=
      ih { c with recordedChunks := chs, recordingTime := t }
        w (fun e he => hmid e (by simp [he])) hrec hse
    refine ⟨chs', t', ?_⟩
    have hfold : stepList (ev :: evs) (c, w) =
        stepList evs (step ev (c, w)) := by simp [stepList]
    rw [hfold, h1, h2]

/-- Delivered chunks are appended, in order, exactly when nonempty
(`VideoRecorder.tsx` lines 543-547). -/
theorem stepList_chunks (cs : List (List Nat)) (c : VideoRecorder) (w : World)
    (r : MediaRecorder) (hmr : c.mediaRecorder = some r)
    (hst : r.state = RecorderState.recording) :
    stepList (cs.map Event.chunk) (c, w) =
      ({ c with recordedChunks :=
          c.recordedChunks ++ cs.filter (fun d => decide (0 < d.length)) }, w) := by
  induction cs generalizing c with
  | nil =>
    cases c with
    | mk isR str err hasR time src mic mr chunks ti vid vf eff oe =>
      simp [stepList]
  | cons d cs ih =>
    have hcons : stepList ((d :: cs).map Event.chunk) (c, w) =
        stepList (cs.map Event.chunk) (step (Event.chunk d) (c, w)) := by
      simp [stepList]
    rw [hcons]
    by_cases hd : 0 < d.length
    · have hstep : step (Event.chunk d) (c, w) =
          ({ c with recordedChunks := c.recordedChunks ++ [d] }, w) := by
        dsimp [step]
        rw [hmr]
        simp [hst, hd]
      rw [hstep, ih _ (by simpa using hmr)]
      simp [List.filter_cons, hd, List.append_assoc]
    · have hstep : step (Event.chunk d) (c, w) = (c, w) := by
        dsimp [step]
        rw [hmr]
        simp [hst, hd]
      rw [hstep, ih _ hmr]
      simp [List.filter_cons, hd]

/-- Dropping the empty chunks does not change the concatenated bytes. -/
theorem flatten_filter_pos (cs : List (List Nat)) :
    (cs.filter (fun d => decide (0 < d.length))).flatten = cs.flatten := by
  induction cs with
  | nil => rfl
  | cons d cs ih =>
    by_cases hd : 0 < d.length
    · simp [List.filter_cons, hd, ih]
    · have hnil : d = [] := by cases d <;> simp_all
      simp [List.filter_cons, hd, ih, hnil]

/-- Every track that a successful acquisition adds to the world belongs to the
stream the acquisition returns, provided the platform's microphone streams
carry a single track (what `getUserMedia({audio: true})` grants). -/
theorem acquire_delta (env : MediaEnv) (src : RecordSource) (mic : Bool)
    (w : World) (ms : MediaStream) (w₁ : World)
    (hacq : acquireForSource env src mic w = (Except.ok ms, w₁))
    (hsingle : ∀ s, env.gumAudio = Except.ok s → ∃ t, s.tracks = [t]) :
    ∀ t ∈ w₁.acquired, t ∈ w.acquired ∨ t ∈ ms.tracks := by
  intro t ht
  cases src with
  | audio =>
    cases hg : env.gumAudio with
    | error e => simp [acquireForSource, hg] at hacq
    | ok s =>
      simp [acquireForSource, hg, World.acquire] at hacq
      obtain ⟨hms, hw⟩ := hacq
      rw [← hw] at ht
      simp at ht
      rcases ht with h | h
      · exact Or.inl h
      · exact Or.inr (by rw [hms] at h; exact h)
  | camera =>
    cases hg : env.gumCamera mic with
    | error e => simp [acquireForSource, hg] at hacq
    | ok s =>
      simp [acquireForSource, hg, World.acquire] at hacq
      obtain ⟨hms, hw⟩ := hacq
      rw [← hw] at ht
      simp at ht
      rcases ht with h | h
      · exact Or.inl h
      · exact Or.inr (by rw [hms] at h; exact h)
  | screen =>
    cases hg : env.getDisplayMedia with
    | error e => simp [acquireForSource, hg] at hacq
    | ok ds =>
      cases mic with
      | false =>
        simp [acquireForSource, hg, World.acquire] at hacq
        obtain ⟨hms, hw⟩ := hacq
        rw [← hw] at ht
        simp at ht
        rcases ht with h | h
        · exact Or.inl h
        · exact Or.inr (by rw [hms] at h; exact h)
      | true =>
        cases hga : env.gumAudio with
        | error e => simp [acquireForSource, hg, hga] at hacq
        | ok micS =>
          obtain ⟨t₀, ht₀⟩ := hsingle micS hga
          by_cases hk : t₀.kind = TrackKind.audio
          · have hhead : micS.getAudioTracks.head? = some t₀ := by
              simp [MediaStream.getAudioTracks, ht₀, hk]
            simp [acquireForSource, hg, hga, hhead, World.acquire,
              MediaStream.addTrack] at hacq
            obtain ⟨hms, hw⟩ := hacq
            rw [← hw] at ht
            simp [ht₀] at ht
            rcases ht with h | h | h
            · exact Or.inl h
            · exact Or.inr (by rw [← hms]; simp [h])
            · exact Or.inr (by rw [← hms]; simp [h])
          · have hhead : micS.getAudioTracks.head? = none := by
              simp [MediaStream.getAudioTracks, ht₀, hk]
            simp [acquireForSource, hg, hga, hhead] at hacq

/-- A stop click from any recording state whose live stream is `ms` stops
every track of `ms` — through the `onstop` path or the fallback branch, and in
either case through the committed `[stream]` effect cleanup. -/
theorem step_clickStop_stops (c : VideoRecorder) (w : World) (ms : MediaStream)
    (hrec : c.isRecording = true) (hs : c.stream = some ms)
    (he : c.effectStream = some ms) :
    ∀ t ∈ ms.tracks, t.id ∈ (step Event.clickStop (c, w)).2.stopped := by
  intro t ht
  have hmem : t.id ∈ ms.tracks.map Track.id := List.mem_map_of_mem Track.id ht
  cases c with
  | mk isR str err hasR time src mic mr chunks ti vid vf eff oe =>
    dsimp at hrec hs he
    subst hrec hs he
    dsimp [step, handleStopRecording]
    rcases ti with _ | i <;> rcases mr with _ | r
    · simp [commitEffects, World.stopTracks, List.mem_append, hmem]
    · by_cases hst : r.state = RecorderState.recording
      · rcases hos : r.onstopStream with _ | s
        all_goals
          dsimp only [onstop]
          split_ifs <;>
            simp [hst, hos, commitEffects, World.stopTracks,
              World.clearInterval, List.mem_append, hmem]
      · simp [hst, commitEffects, World.stopTracks, List.mem_append, hmem]
    · simp [commitEffects, World.stopTracks, World.clearInterval,
        List.mem_append, hmem]
    · by_cases hst : r.state = RecorderState.recording
      · rcases hos : r.onstopStream with _ | s
        all_goals
          dsimp only [onstop]
          split_ifs <;>
            simp [hst, hos, commitEffects, World.stopTracks,
              World.clearInterval, List.mem_append, hmem]
      · simp [hst, commitEffects, World.stopTracks, World.clearInterval,
          List.mem_append, hmem]

/-- After any sequence of mid-session events, a stop click still stops every
track of the session stream. -/
theorem mids_then_stop_stops (mids : List Event) (c : VideoRecorder)
    (w : World) (ms : MediaStream)
    (hmids : ∀ ev ∈ mids, IsMid ev) (hrec : c.isRecording = true)
    (hs : c.stream = some ms) (he : c.effectStream = some ms) :
    ∀ t ∈ ms.tracks,
      t.id ∈ (step Event.clickStop (stepList mids (c, w))).2.stopped := by
  intro t ht
  obtain ⟨chs, tm, hl⟩ := stepList_mid mids c w hmids hrec (by rw [he, hs])
  rw [hl]
  refine step_clickStop_stops _ w ms ?_ ?_ ?_ t ht
  · exact hrec
  · exact hs
  · exact he

/-- Full characterization of a stop click from a recording state whose
recorder is active: the timer is cleared, the artifact is finalized from the
buffered chunks, the preview is rebound, and the committed effect cleanup
stops the tracks of the session stream. -/
theorem step_clickStop_recording
    (c : VideoRecorder) (w : World) (r : MediaRecorder) (i : Nat)
    (ms : MediaStream)
    (hrec : c.isRecording = true)
    (hmr : c.mediaRecorder = some r) (hst : r.state = RecorderState.recording)
    (hti : c.timerInterval = some i)
    (hos : r.onstopStream = none)
    (heff : c.effectStream = some ms) :
    step Event.clickStop (c, w) =
      ({ c with
          timerInterval := none,
          mediaRecorder := some { r with state := RecorderState.inactive },
          videoFile := some
            { name := suggestedFileName r.onstopSource,
              type := finalizedMimeType r,
              data := c.recordedChunks.flatten },
          hasRecording := true,
          video :=
            if r.onstopSource ≠ RecordSource.audio then
              { c.video with
                srcObject := none,
                src := some { data := c.recordedChunks.flatten,
                              type := finalizedMimeType r },
                muted := false, controls := true }
            else c.video,
          stream := none, isRecording := false, effectStream := none },
       { w with
          activeIntervals := w.activeIntervals.erase i,
          stopped := w.stopped ++ ms.tracks.map Track.id }) := by
  cases c with
  | mk isR str err hasR time src mic mr chunks ti vid vf eff oe =>
    dsimp at hrec hmr hti heff
    subst hrec hmr hti heff
    cases r with
    | mk rs rmime rstate ros rsrc =>
      dsimp at hst hos
      subst hst hos
      dsimp [step, handleStopRecording, onstop, commitEffects,
        World.clearInterval, World.stopTracks]
      split_ifs <;> first | rfl | simp_all

/-- A stop request while a recording is active behaves the same whatever
`stream` value the invoking closure captured: the active-recorder branch of
`handleStopRecording` only reads the refs (`VideoRecorder.tsx` lines 604-606). -/
theorem handleStopRecording_captured_irrelevant
    (cap₁ cap₂ : Option MediaStream) (c : VideoRecorder) (w : World)
    (r : MediaRecorder)
    (hmr : c.mediaRecorder = some r)
    (hst : r.state = RecorderState.recording) :
    handleStopRecording cap₁ c w = handleStopRecording cap₂ c w := by
  cases c with
  | mk isR str err hasR time src mic mr chunks ti vid vf eff oe =>
    dsimp at hmr
    subst hmr
    dsimp [handleStopRecording]
    rcases ti with _ | i <;> simp [hst]

/-! ### The claims -/

/-- C1: for every capture source in `{camera, screen, audio-only}` and every
recording session started from an idle component, once the stop sequence
completes every hardware track acquired for that session has been stopped —
including the separately acquired microphone track in the
screen-with-microphone case (the hypothesis `hsingle` states the platform
guarantee that a microphone request grants a single-track stream). -/
theorem stop_stops_every_acquired_track
    (env : MediaEnv) (c : VideoRecorder) (w : World) (ms : MediaStream)
    (w₁ : World) (mids : List Event)
    (hrec : c.isRecording = false) (hstr : c.stream = none)
    (heff : c.effectStream = none)
    (hacq : acquireForSource env c.recordSource c.includeMic w =
      (Except.ok ms, w₁))
    (hsingle : ∀ s, env.gumAudio = Except.ok s → ∃ t, s.tracks = [t])
    (hmids : ∀ ev ∈ mids, IsMid ev) :
    ∀ t ∈ w₁.acquired, t ∉ w.acquired →
      t.id ∈ (stepList (Event.clickStart env :: (mids ++ [Event.clickStop]))
        (c, w)).2.stopped := by
  intro t ht hnt
  rcases acquire_delta env c.recordSource c.includeMic w ms w₁ hacq hsingle t ht
    with h | h
  · exact absurd h hnt
  have htrace : stepList (Event.clickStart env :: (mids ++ [Event.clickStop]))
      (c, w) =
      step Event.clickStop
        (stepList mids (step (Event.clickStart env) (c, w))) := by
    simp [stepList, List.foldl_append]
  rw [htrace, step_clickStart_ok env c w ms w₁ hrec hstr heff hacq]
  exact mids_then_stop_stops mids (startedState env c ms w₁).1
    (startedState env c ms w₁).2 ms hmids rfl rfl rfl t h

/-- Witness for C1: the camera session acquires tracks 0 and 1, and track 0 is
stopped once the stop click has been processed. -/
theorem stop_stops_every_acquired_track_witness :
    ({ id := 0, kind := TrackKind.video } : Track).id ∈
      (stepList (Event.clickStart cameraGrantedEnv :: ([] ++ [Event.clickStop]))
        (VideoRecorder.initial, World.initial)).2.stopped :=
  stop_stops_every_acquired_track cameraGrantedEnv VideoRecorder.initial
    World.initial
    { tracks := [{ id := 0, kind := TrackKind.video },
                 { id := 1, kind := TrackKind.audio }] }
    { acquired := [{ id := 0, kind := TrackKind.video },
                   { id := 1, kind := TrackKind.audio }],
      stopped := [], activeIntervals := [], nextIntervalId := 0 }
    [] rfl rfl rfl rfl
    (fun s h => by cases h; exact ⟨{ id := 2, kind := TrackKind.audio }, rfl⟩)
    (fun ev h => absurd h (List.not_mem_nil ev))
    { id := 0, kind := TrackKind.video } (by decide) (by decide)

/-- C2, evaluated at the failing input: in the screen-with-microphone path,
when the display capture is granted and the microphone request is then denied,
the component sets the permission-denied message and is not recording, but the
two granted display tracks are left live — the catch block stops nothing and
the `stream` state was never set, so no cleanup can reach them. -/
theorem screen_mic_denial_leaves_display_tracks_live :
    (step (Event.clickStart micDeniedEnv)
        ({ VideoRecorder.initial with recordSource := RecordSource.screen },
         World.initial)).1.error =
      some "Screen permission denied. Please allow access in your browser settings." ∧
    (step (Event.clickStart micDeniedEnv)
        ({ VideoRecorder.initial with recordSource := RecordSource.screen },
         World.initial)).1.isRecording = false ∧
    (step (Event.clickStart micDeniedEnv)
        ({ VideoRecorder.initial with recordSource := RecordSource.screen },
         World.initial)).2.liveTracks =
      [{ id := 0, kind := TrackKind.video },
       { id := 1, kind := TrackKind.audio }] :=
  ⟨rfl, rfl, rfl⟩

/-- C3: for any number of chunks, the buffered chunks are exactly the nonempty
chunks in arrival order, and the finalized artifact carries the concatenation
of all delivered payloads under the negotiated mime type; a zero-chunk session
yields an empty but well-formed artifact with `hasRecording` set and no
error. -/
theorem artifact_reproduces_chunk_sequence
    (env : MediaEnv) (c : VideoRecorder) (w : World) (ms : MediaStream)
    (w₁ : World) (cs : List (List Nat))
    (hrec : c.isRecording = false) (hstr : c.stream = none)
    (heff : c.effectStream = none)
    (hacq : acquireForSource env c.recordSource c.includeMic w =
      (Except.ok ms, w₁)) :
    (stepList (Event.clickStart env :: cs.map Event.chunk)
        (c, w)).1.recordedChunks =
      cs.filter (fun d => decide (0 < d.length)) ∧
    (stepList (Event.clickStart env :: (cs.map Event.chunk ++ [Event.clickStop]))
        (c, w)).1.videoFile =
      some { name := suggestedFileName c.recordSource,
             type := finalizedMimeType (startedRecorder env c.recordSource ms),
             data := cs.flatten } ∧
    (stepList (Event.clickStart env :: (cs.map Event.chunk ++ [Event.clickStop]))
        (c, w)).1.hasRecording = true ∧
    (stepList (Event.clickStart env :: (cs.map Event.chunk ++ [Event.clickStop]))
        (c, w)).1.error = none := by
  have h1 : stepList (Event.clickStart env :: cs.map Event.chunk) (c, w) =
      stepList (cs.map Event.chunk) (step (Event.clickStart env) (c, w)) := by
    simp [stepList]
  have h2 : stepList
      (Event.clickStart env :: (cs.map Event.chunk ++ [Event.clickStop]))
      (c, w) =
      step Event.clickStop
        (stepList (cs.map Event.chunk) (step (Event.clickStart env) (c, w))) := by
    simp [stepList, List.foldl_append]
  have hstart := step_clickStart_ok env c w ms w₁ hrec hstr heff hacq
  have heta : startedState env c ms w₁ =
      ((startedState env c ms w₁).1, (startedState env c ms w₁).2) := rfl
  have hchunks := stepList_chunks cs (startedState env c ms w₁).1
    (startedState env c ms w₁).2 (startedRecorder env c.recordSource ms) rfl rfl
  have hstop := step_clickStop_recording
    { (startedState env c ms w₁).1 with
        recordedChunks := (startedState env c ms w₁).1.recordedChunks ++
          cs.filter (fun d => decide (0 < d.length)) }
    (startedState env c ms w₁).2
    (startedRecorder env c.recordSource ms)
    w₁.nextIntervalId ms rfl rfl rfl rfl rfl rfl
  refine ⟨?_, ?_, ?_, ?_⟩
  · rw [h1, hstart, heta, hchunks]
    rfl
  · rw [h2, hstart, heta, hchunks, hstop]
    dsimp [startedState, startedRecorder]
    simp [flatten_filter_pos]
  · rw [h2, hstart, heta, hchunks, hstop]
  · rw [h2, hstart, heta, hchunks, hstop]
    rfl

/-- Witness for C3: three chunks, one of them empty, finalize into the
concatenated artifact named for the camera source. -/
theorem artifact_reproduces_chunk_sequence_witness :
    (stepList (Event.clickStart cameraGrantedEnv ::
        ([[1, 2], [], [3]].map Event.chunk ++ [Event.clickStop]))
      (VideoRecorder.initial, World.initial)).1.videoFile =
      some { name := "camera-recording.webm", type := "video/webm; codecs=vp9",
             data := [1, 2, 3] } := by
  have h := artifact_reproduces_chunk_sequence cameraGrantedEnv
    VideoRecorder.initial World.initial
    { tracks := [{ id := 0, kind := TrackKind.video },
                 { id := 1, kind := TrackKind.audio }] }
    { acquired := [{ id := 0, kind := TrackKind.video },
                   { id := 1, kind := TrackKind.audio }],
      stopped := [], activeIntervals := [], nextIntervalId := 0 }
    [[1, 2], [], [3]] rfl rfl rfl rfl
  exact h.2.1

/-- C4: a stop triggered by the platform's screen-share-ended signal runs the
same stop logic as a manual stop click: from any state where a recording is in
progress and the `onended` handler is attached, the two events produce the
very same component state and world — same artifact, same timer clearing,
same track stopping, same state updates. -/
theorem external_stop_equals_manual_stop
    (c : VideoRecorder) (w : World) (r : MediaRecorder)
    (cap : Option MediaStream)
    (hrec : c.isRecording = true)
    (hmr : c.mediaRecorder = some r) (hst : r.state = RecorderState.recording)
    (hoe : c.onended = some cap) :
    step Event.screenShareEnded (c, w) = step Event.clickStop (c, w) := by
  dsimp [step]
  rw [hoe]
  simp only [hrec, if_true]
  exact congrArg commitEffects
    (handleStopRecording_captured_irrelevant cap c.stream c w r hmr hst)

/-- Witness for C4 at a concrete recording state. -/
theorem external_stop_equals_manual_stop_witness :
    step Event.screenShareEnded (recordingStateW, World.initial) =
      step Event.clickStop (recordingStateW, World.initial) :=
  external_stop_equals_manual_stop recordingStateW World.initial _ none
    rfl rfl rfl rfl

/-- C5: a start request issued while a recording session is active is rejected
without mutating anything: the component state and the world are returned
unchanged (while recording, the UI renders the stop button in place of the
start button). -/
theorem start_while_recording_rejected
    (env : MediaEnv) (c : VideoRecorder) (w : World)
    (h : c.isRecording = true) :
    step (Event.clickStart env) (c, w) = (c, w) := by
  simp [step, h]

/-- Witness for C5 at a concrete recording state. -/
theorem start_while_recording_rejected_witness :
    step (Event.clickStart cameraGrantedEnv) (recordingStateW, World.initial) =
      (recordingStateW, World.initial) :=
  start_while_recording_rejected cameraGrantedEnv recordingStateW World.initial
    rfl

/-- C6, evaluated at the failing input: a granted camera start resets the
clock to 0 and registers the one-second interval, but the commit of the
`stream` state change re-runs the `[stream]` effect, whose cleanup clears the
interval just stored in `timerIntervalRef` — so the elapsed fixed one-second
interval does not increment the clock: it stays 0 while recording. -/
theorem recording_clock_never_advances :
    (step (Event.clickStart cameraGrantedEnv)
        (VideoRecorder.initial, World.initial)).1.recordingTime = 0 ∧
    (step (Event.clickStart cameraGrantedEnv)
        (VideoRecorder.initial, World.initial)).1.timerInterval = some 0 ∧
    (step (Event.clickStart cameraGrantedEnv)
        (VideoRecorder.initial, World.initial)).2.activeIntervals = [] ∧
    (step (Event.tick 0)
        (step (Event.clickStart cameraGrantedEnv)
          (VideoRecorder.initial, World.initial))).1.recordingTime = 0 :=
  ⟨rfl, rfl, rfl, rfl⟩

/-- C7: the preferred mime type is `video/webm; codecs=vp9` for camera and
screen and `audio/webm` for audio-only; the recorder is constructed with the
preferred type when the runtime supports it and with the platform default
otherwise, and in both cases the session proceeds into recording with no
user-facing error. -/
theorem mime_negotiation_never_fails_session
    (env : MediaEnv) (c : VideoRecorder) (w : World) (ms : MediaStream)
    (w₁ : World)
    (hrec : c.isRecording = false) (hstr : c.stream = none)
    (heff : c.effectStream = none)
    (hacq : acquireForSource env c.recordSource c.includeMic w =
      (Except.ok ms, w₁)) :
    preferredMimeType RecordSource.camera = "video/webm; codecs=vp9" ∧
    preferredMimeType RecordSource.screen = "video/webm; codecs=vp9" ∧
    preferredMimeType RecordSource.audio = "audio/webm" ∧
    (step (Event.clickStart env) (c, w)).1.mediaRecorder = some
      { stream := ms,
        mimeType :=
          if env.isTypeSupported (preferredMimeType c.recordSource) then
            preferredMimeType c.recordSource
          else env.defaultMimeType,
        state := RecorderState.recording,
        onstopStream := none, onstopSource := c.recordSource } ∧
    (step (Event.clickStart env) (c, w)).1.error = none ∧
    (step (Event.clickStart env) (c, w)).1.isRecording = true := by
  rw [step_clickStart_ok env c w ms w₁ hrec hstr heff hacq]
  refine ⟨rfl, rfl, rfl, ?_, rfl, rfl⟩
  dsimp [startedState, startedRecorder, negotiateMime]
  split_ifs <;> rfl

/-- Witness for C7: on a platform that reports the preferred mime type
unsupported, the recorder falls back to the platform default and the session
still reaches the recording state with no error. -/
theorem mime_negotiation_never_fails_session_witness :
    (step (Event.clickStart unsupportedMimeEnv)
        (VideoRecorder.initial, World.initial)).1.mediaRecorder = some
      { stream := { tracks := [{ id := 0, kind := TrackKind.video },
                               { id := 1, kind := TrackKind.audio }] },
        mimeType := "video/webm;codecs=vp8,opus",
        state := RecorderState.recording,
        onstopStream := none, onstopSource := RecordSource.camera } ∧
    (step (Event.clickStart unsupportedMimeEnv)
        (VideoRecorder.initial, World.initial)).1.error = none ∧
    (step (Event.clickStart unsupportedMimeEnv)
        (VideoRecorder.initial, World.initial)).1.isRecording = true := by
  have h := mime_negotiation_never_fails_session unsupportedMimeEnv
    VideoRecorder.initial World.initial
    { tracks := [{ id := 0, kind := TrackKind.video },
                 { id := 1, kind := TrackKind.audio }] }
    { acquired := [{ id := 0, kind := TrackKind.video },
                   { id := 1, kind := TrackKind.audio }],
      stopped := [], activeIntervals := [], nextIntervalId := 0 }
    rfl rfl rfl rfl
  exact ⟨h.2.2.2.1, h.2.2.2.2.1, h.2.2.2.2.2⟩

/-- C8: finalization always names the artifact from the capture source alone —
`camera-recording.webm`, `screen-recording.webm`, `audio-recording.webm` —
regardless of the buffered chunks or of microphone inclusion (the component
state `c` is arbitrary). -/
theorem artifact_file_name_from_source :
    (∀ (r : MediaRecorder) (c : VideoRecorder) (w : World),
        ((onstop r c w).1.videoFile).map MediaFile.name =
          some (suggestedFileName r.onstopSource)) ∧
    suggestedFileName RecordSource.camera = "camera-recording.webm" ∧
    suggestedFileName RecordSource.screen = "screen-recording.webm" ∧
    suggestedFileName RecordSource.audio = "audio-recording.webm" := by
  refine ⟨fun r c w => ?_, rfl, rfl, rfl⟩
  dsimp [onstop]
  split_ifs <;> rfl

/-- C9, evaluated at the failing input: whenever a video file is selected,
`handleGenerate` calls `generateGuide` with its `videoFile` argument missing
(`App.tsx` line 61 passes five of the six arguments), so every
guide-generation attempt fails with the generic message and no request
carrying a video payload is ever issued. -/
theorem generate_call_omits_video_payload
    (userPrompt videoDescription transcribedText : String)
    (outputFormat : OutputFormat) (vf : WebFile) :
    handleGenerate (some vf) userPrompt outputFormat videoDescription
        transcribedText =
      GenerateOutcome.requestFailed
        "An error occurred: Failed to generate guide. Please check your API key and network connection." :=
  rfl

/-- C10: a submitted file becomes the selected video file exactly when its
MIME type starts with `video/` and its size is at most `500 * 1024 * 1024`
bytes; each rejection leaves the previous selection unchanged and sets the
message specific to its cause, and the picker and drag-and-drop paths both
route through the same validation. -/
theorem upload_validation_gate (f : WebFile) (st : UploadState)
    (hne : st.videoFile ≠ some f) :
    ((validateAndSetFile f st).videoFile = some f ↔
      (jsStartsWith f.type "video/" = true ∧ f.size ≤ MAX_FILE_SIZE)) ∧
    (jsStartsWith f.type "video/" = false →
      validateAndSetFile f st =
        { st with uploadError := some "Invalid file type. Please upload a video file." }) ∧
    (jsStartsWith f.type "video/" = true → MAX_FILE_SIZE < f.size →
      validateAndSetFile f st =
        { st with uploadError := some "File exceeds 500MB limit. Please choose a smaller video." }) ∧
    handleFileChange [f] st = validateAndSetFile f st ∧
    handleDrop [f] st = validateAndSetFile f st := by
  refine ⟨?_, ?_, ?_, rfl, rfl⟩
  · constructor
    · intro h
      by_cases h1 : jsStartsWith f.type "video/" = true
      · by_cases h2 : f.size > MAX_FILE_SIZE
        · exfalso
          apply hne
          rw [← h]
          simp [validateAndSetFile, h1, h2]
        · exact ⟨h1, Nat.le_of_not_lt h2⟩
      · exfalso
        apply hne
        rw [← h]
        simp [validateAndSetFile, h1]
    · rintro ⟨h1, h2⟩
      simp [validateAndSetFile, h1, Nat.not_lt.mpr h2]
  · intro h1
    simp [validateAndSetFile, h1]
  · intro h1 h2
    simp [validateAndSetFile, h1, h2]

/-- Witness for C10: a small `video/mp4` file is accepted by the validation
and the drag-and-drop path agrees with the picker path. -/
theorem upload_validation_gate_witness :
    (validateAndSetFile { name := "demo.mp4", type := "video/mp4", data := [0] }
        { videoFile := none, uploadError := none }).videoFile =
      some { name := "demo.mp4", type := "video/mp4", data := [0] } ∧
    handleDrop [{ name := "demo.mp4", type := "video/mp4", data := [0] }]
        { videoFile := none, uploadError := none } =
      validateAndSetFile { name := "demo.mp4", type := "video/mp4", data := [0] }
        { videoFile := none, uploadError := none } := by
  have h := upload_validation_gate
    { name := "demo.mp4", type := "video/mp4", data := [0] }
    { videoFile := none, uploadError := none } (by simp)
  exact ⟨h.1.mpr ⟨rfl, by decide⟩, h.2.2.2.2⟩

end ScreenGuideAI
